import Mathlib

/-!
Verification development for the HousePowerBMSRE cell-module firmware
(src/main.cpp). The definitions below are a shallow embedding of the
decision and timing core of the firmware: the moving-average voltage
filter, the hysteresis/debounce cell state machine, the shunt
controller, and the cutoff recency tracker driven by the main loop.
Machine integers of the C source (long, byte, unsigned int) are
modelled as Int and Nat; all arithmetic stays far from the machine
bounds except where guards in the source prevent overflow, which is
noted at the relevant definition.
-/

/-- Cell states, from the enum in src/main.cpp lines 183-188. -/
inductive CellState where
  | e_CellInvalid : CellState
  | e_CellNorm : CellState
  | e_CellLVC : CellState
  | e_CellHVC : CellState
deriving DecidableEq

open CellState

/-- Low-voltage cutoff engage threshold (mV), src/main.cpp line 52. -/
def c_LVoltage_engage : Int := 2900

/-- Low-voltage cutoff disengage threshold (mV), src/main.cpp line 53. -/
def c_LVoltage_disengage : Int := 2950

/-- High-voltage cutoff engage threshold (mV), src/main.cpp line 54. -/
def c_HVoltage_engage : Int := 3600

/-- High-voltage cutoff disengage threshold (mV), src/main.cpp line 55. -/
def c_HVoltage_disengage : Int := 3550

/-- Shunting engage threshold (mV), src/main.cpp line 58. -/
def c_ShuntVoltage_engage : Int := 3500

/-- Shunting disengage threshold (mV), src/main.cpp line 59. -/
def c_ShuntVoltage_disengage : Int := 3450

/-- Number of voltage measurements to average, src/main.cpp line 62.
An abbreviation so that Fin indices over the window reduce. -/
abbrev c_MovingAverageWindow : Nat := 5

/-- Number of cycles a new state needs to settle, src/main.cpp line 66. -/
def c_StateSettleTime : Nat := 3

/-- Recent-cutoff notification window in cycles, src/main.cpp line 70. -/
def c_RecentCutOffDuration : Nat := 30 * 60

/-- Sentinel meaning no recent cutoff, src/main.cpp line 281
(0xffff on the 16-bit unsigned counter). -/
def c_NoCutoffEvent : Nat := 0xffff

/-- Mutable state read and written by determine_cellstate
(src/main.cpp lines 199-211): committed cell state, pending cell
state with its cycle age, committed shunting flag, pending shunting
flag with its cycle age. -/
structure BMSState where
  cellstate : CellState
  cellstate_pending : CellState
  cellstate_pending_age : Nat
  shunting : Bool
  shunting_pending : Bool
  shunting_pending_age : Nat
deriving DecidableEq

/-- The straight-line cell-state decision of determine_cellstate
(src/main.cpp lines 215 and 230-248): start from the current state as
default, then apply each if statement in program order, later
assignments overwriting earlier ones. -/
def cellstate_proposal (cellvoltage : Int) (cellstate : CellState) : CellState :=
  let n := cellstate
  let n := if cellstate = e_CellHVC ∧ cellvoltage < c_HVoltage_disengage then e_CellNorm else n
  let n := if cellstate = e_CellLVC ∧ cellvoltage > c_LVoltage_disengage then e_CellNorm else n
  let n := if cellstate = e_CellInvalid ∧ cellvoltage > c_LVoltage_engage ∧ cellvoltage < c_HVoltage_engage then e_CellNorm else n
  let n := if cellvoltage > c_LVoltage_disengage ∧ cellvoltage < c_HVoltage_disengage then e_CellNorm else n
  let n := if cellvoltage ≥ c_HVoltage_engage then e_CellHVC else n
  let n := if cellvoltage ≤ c_LVoltage_engage then e_CellLVC else n
  n

/-- The shunting decision of determine_cellstate (src/main.cpp lines
216 and 220-226): keep the current value, engage above the engage
threshold when not shunting, disengage below the disengage threshold
when shunting. -/
def shunting_proposal (cellvoltage : Int) (shunting : Bool) : Bool :=
  let n := shunting
  let n := if ¬shunting ∧ cellvoltage > c_ShuntVoltage_engage then true else n
  let n := if shunting ∧ cellvoltage < c_ShuntVoltage_disengage then false else n
  n

/-- Debounce block for the shunting flag (src/main.cpp lines 251-260):
a changed proposal replaces the pending value and resets its age;
an unchanged proposal is committed once the age exceeds the settle
time and otherwise ages by one cycle. -/
def shunt_debounce (shunting_new : Bool) (s : BMSState) : BMSState :=
  if s.shunting_pending ≠ shunting_new then
    { s with shunting_pending := shunting_new, shunting_pending_age := 0 }
  else if s.shunting_pending_age > c_StateSettleTime then
    { s with shunting := shunting_new }
  else
    { s with shunting_pending_age := s.shunting_pending_age + 1 }

/-- Debounce block for the cell state (src/main.cpp lines 266-275),
identical in shape to the shunting debounce. -/
def cell_debounce (cellstate_new : CellState) (s : BMSState) : BMSState :=
  if s.cellstate_pending ≠ cellstate_new then
    { s with cellstate_pending := cellstate_new, cellstate_pending_age := 0 }
  else if s.cellstate_pending_age > c_StateSettleTime then
    { s with cellstate := cellstate_new }
  else
    { s with cellstate_pending_age := s.cellstate_pending_age + 1 }

/-- One call of determine_cellstate (src/main.cpp lines 213-276) at a
given filtered voltage: compute both proposals from the incoming
state, run the shunting debounce, then return early if the cell
proposal is e_CellInvalid (line 263) and otherwise run the cell
debounce. -/
def determine_cellstate (cellvoltage : Int) (s : BMSState) : BMSState :=
  let shunting_new := shunting_proposal cellvoltage s.shunting
  let cellstate_new := cellstate_proposal cellvoltage s.cellstate
  let s1 := shunt_debounce shunting_new s
  if cellstate_new = e_CellInvalid then s1
  else cell_debounce cellstate_new s1

/-- A run of consecutive loop cycles, each calling determine_cellstate
with that cycle's filtered voltage. -/
def run_ticks (vs : List Int) (s : BMSState) : BMSState :=
  vs.foldl (fun s v => determine_cellstate v s) s

/-- State of the moving-average filter (src/main.cpp lines 160-161):
the window of the last readings and the write cursor. -/
structure AvgState where
  avg_buffer : Fin c_MovingAverageWindow → Int
  avg_index : Fin c_MovingAverageWindow

/-- One call of moving_average (src/main.cpp lines 164-173): store the
reading at the cursor, advance the cursor modulo the window size (the
source increments the byte index and immediately reduces it modulo
the window), then return the sum of all slots divided by the window
size with C truncating integer division. -/
def moving_average (val : Int) (s : AvgState) : AvgState × Int :=
  let buf := Function.update s.avg_buffer s.avg_index val
  let idx := s.avg_index + 1
  let sum := buf 0 + buf 1 + buf 2 + buf 3 + buf 4
  (⟨buf, idx⟩, Int.tdiv sum (c_MovingAverageWindow : Int))

/-- Push the same reading k times into the filter, keeping the state. -/
def push_run (val : Int) : Nat → AvgState → AvgState
  | 0, s => s
  | k + 1, s => push_run val k (moving_average val s).1

/-- One loop cycle of the cutoff recency tracker (src/main.cpp lines
355-356 and the switch at lines 367-441), given the committed cell
state of that cycle: the counter is incremented at the top of the
loop when not at the sentinel, then the cutoff branches reset it to
zero, while the e_CellNorm branch either signals a recent cutoff by
inverting the LED pulse (counter below the duration) or pins the
counter to the sentinel. Returns the new counter and the invert_led
flag of the cycle. The counter is a 16-bit unsigned in the source;
the guard against the sentinel 0xffff keeps it from wrapping. -/
def loop_recency_update (last_cutoff_age : Nat) (cellstate : CellState) : Nat × Bool :=
  let age := if last_cutoff_age ≠ c_NoCutoffEvent then last_cutoff_age + 1 else last_cutoff_age
  match cellstate with
  | e_CellLVC => (0, false)
  | e_CellNorm => if age < c_RecentCutOffDuration then (age, true) else (c_NoCutoffEvent, false)
  | e_CellHVC => (0, false)
  | e_CellInvalid => (age, false)

/-- Recency counter after k consecutive cycles whose committed cell
state is e_CellNorm, starting from the given counter value. -/
def normal_run (init : Nat) : Nat → Nat
  | 0 => init
  | k + 1 => (loop_recency_update (normal_run init k) e_CellNorm).1

/-- Value assigned to last_cutoff_age by setup (src/main.cpp line 345). -/
def setup_last_cutoff_age : Nat := 0

/-- Initial filter state: the buffer is filled with the nominal value
3200 by setup (src/main.cpp lines 341-343) and the cursor starts at
0 (line 161). -/
def init_avg : AvgState := ⟨fun _ => 3200, 0⟩

/-- Initial business-logic state (src/main.cpp lines 199-211):
invalid cell state, invalid pending state, ages zero, not shunting. -/
def init_bms : BMSState :=
  ⟨e_CellInvalid, e_CellInvalid, 0, false, false, 0⟩

/-- Whole-system state for the end-to-end scenario: filter state,
business-logic state and the current filtered voltage (the global
cellvoltage, initialized to 3200 at src/main.cpp line 82). -/
structure SysState where
  avg : AvgState
  bms : BMSState
  cellvoltage : Int

/-- One loop cycle of the system on a raw reading (src/main.cpp lines
363-365): filter the reading, then run determine_cellstate on the
filtered value. -/
def system_tick (reading : Int) (s : SysState) : SysState :=
  let p := moving_average reading s.avg
  ⟨p.1, determine_cellstate p.2 s.bms, p.2⟩

/-- Per-cycle readings of the end-to-end scenario of the spec: 3200 mV
on cycles 1-3, then 2850 mV from cycle 4 on. -/
def scenario_reading (t : Nat) : Int := if t ≤ 3 then 3200 else 2850

/-- System state after t cycles of the end-to-end scenario, starting
from the power-on state. -/
def scenario_state : Nat → SysState
  | 0 => ⟨init_avg, init_bms, 3200⟩
  | t + 1 => system_tick (scenario_reading (t + 1)) (scenario_state t)

/-- The seven-rule decision algorithm exactly as worded in section 4.2
of the spec, later rules overriding earlier ones: (1) default to the
current state; (2) leave OverVoltageCutoff once voltage has fallen
below high-voltage-disengage; (3) leave UnderVoltageCutoff once
voltage has risen above low-voltage-disengage; (4) bootstrap Invalid
to Normal strictly between low-voltage-engage and
high-voltage-engage; (5) safe band strictly between
low-voltage-disengage and high-voltage-disengage is Normal; (6) at or
above high-voltage-engage is OverVoltageCutoff; (7) at or below
low-voltage-engage is UnderVoltageCutoff. -/
def classify_spec_rules (filteredVoltage : Int) (currentState : CellState) : CellState :=
  let r1 := currentState
  let r2 := if currentState = e_CellHVC ∧ filteredVoltage < c_HVoltage_disengage then e_CellNorm else r1
  let r3 := if currentState = e_CellLVC ∧ filteredVoltage > c_LVoltage_disengage then e_CellNorm else r2
  let r4 := if currentState = e_CellInvalid ∧ c_LVoltage_engage < filteredVoltage ∧ filteredVoltage < c_HVoltage_engage then e_CellNorm else r3
  let r5 := if c_LVoltage_disengage < filteredVoltage ∧ filteredVoltage < c_HVoltage_disengage then e_CellNorm else r4
  let r6 := if filteredVoltage ≥ c_HVoltage_engage then e_CellHVC else r5
  let r7 := if filteredVoltage ≤ c_LVoltage_engage then e_CellLVC else r6
  r7

/-! ### Basic facts about the embedded operations -/

theorem run_ticks_nil (s : BMSState) : run_ticks [] s = s := rfl

theorem run_ticks_cons (v : Int) (vs : List Int) (s : BMSState) :
    run_ticks (v :: vs) s = run_ticks vs (determine_cellstate v s) := rfl

theorem determine_cellstate_eq (v : Int) (s : BMSState) :
    determine_cellstate v s =
      if cellstate_proposal v s.cellstate = e_CellInvalid
      then shunt_debounce (shunting_proposal v s.shunting) s
      else cell_debounce (cellstate_proposal v s.cellstate)
             (shunt_debounce (shunting_proposal v s.shunting) s) := rfl

@[simp] theorem shunt_debounce_cellstate (b : Bool) (s : BMSState) :
    (shunt_debounce b s).cellstate = s.cellstate := by
  unfold shunt_debounce; split_ifs <;> rfl

@[simp] theorem shunt_debounce_cellstate_pending (b : Bool) (s : BMSState) :
    (shunt_debounce b s).cellstate_pending = s.cellstate_pending := by
  unfold shunt_debounce; split_ifs <;> rfl

@[simp] theorem shunt_debounce_cellstate_pending_age (b : Bool) (s : BMSState) :
    (shunt_debounce b s).cellstate_pending_age = s.cellstate_pending_age := by
  unfold shunt_debounce; split_ifs <;> rfl

@[simp] theorem cell_debounce_shunting (c : CellState) (s : BMSState) :
    (cell_debounce c s).shunting = s.shunting := by
  unfold cell_debounce; split_ifs <;> rfl

@[simp] theorem cell_debounce_shunting_pending (c : CellState) (s : BMSState) :
    (cell_debounce c s).shunting_pending = s.shunting_pending := by
  unfold cell_debounce; split_ifs <;> rfl

@[simp] theorem cell_debounce_shunting_pending_age (c : CellState) (s : BMSState) :
    (cell_debounce c s).shunting_pending_age = s.shunting_pending_age := by
  unfold cell_debounce; split_ifs <;> rfl

theorem det_cellstate_cases (v : Int) (s : BMSState) :
    (determine_cellstate v s).cellstate = s.cellstate ∨
    (determine_cellstate v s).cellstate = cellstate_proposal v s.cellstate := by
  rw [determine_cellstate_eq]
  unfold cell_debounce
  split_ifs <;> simp

theorem det_pending_const (v : Int) (s : BMSState) (P : CellState)
    (hp : cellstate_proposal v s.cellstate = P) (hPI : P ≠ e_CellInvalid) :
    (determine_cellstate v s).cellstate_pending = P := by
  rw [determine_cellstate_eq, hp, if_neg hPI]
  unfold cell_debounce
  split_ifs with h1 h2 <;> simp_all

theorem det_commit (v : Int) (s : BMSState) (P : CellState)
    (hp : cellstate_proposal v s.cellstate = P) (hPI : P ≠ e_CellInvalid)
    (hpend : s.cellstate_pending = P)
    (hage : s.cellstate_pending_age > c_StateSettleTime) :
    (determine_cellstate v s).cellstate = P := by
  rw [determine_cellstate_eq, hp, if_neg hPI]
  unfold cell_debounce
  split_ifs with h1 h2 <;> simp_all

theorem det_age (v : Int) (s : BMSState) (P : CellState)
    (hp : cellstate_proposal v s.cellstate = P) (hPI : P ≠ e_CellInvalid)
    (hpend : s.cellstate_pending = P)
    (hage : ¬ s.cellstate_pending_age > c_StateSettleTime) :
    (determine_cellstate v s).cellstate = s.cellstate ∧
    (determine_cellstate v s).cellstate_pending = P ∧
    (determine_cellstate v s).cellstate_pending_age = s.cellstate_pending_age + 1 := by
  rw [determine_cellstate_eq, hp, if_neg hPI]
  unfold cell_debounce
  split_ifs with h1 h2 <;> simp_all <;> omega

theorem det_fresh (v : Int) (s : BMSState) (P : CellState)
    (hp : cellstate_proposal v s.cellstate = P) (hPI : P ≠ e_CellInvalid)
    (hpend : s.cellstate_pending ≠ P) :
    (determine_cellstate v s).cellstate = s.cellstate ∧
    (determine_cellstate v s).cellstate_pending = P ∧
    (determine_cellstate v s).cellstate_pending_age = 0 := by
  rw [determine_cellstate_eq, hp, if_neg hPI]
  unfold cell_debounce
  split_ifs with h1 h2 <;> simp_all

theorem proposal_safe_band (v : Int) (cs : CellState)
    (h1 : c_LVoltage_disengage < v) (h2 : v < c_HVoltage_disengage) :
    cellstate_proposal v cs = e_CellNorm := by
  cases cs <;> simp only [cellstate_proposal, c_LVoltage_engage, c_LVoltage_disengage,
    c_HVoltage_engage, c_HVoltage_disengage] at * <;>
    split_ifs <;> first | rfl | omega | (simp_all; omega) | simp_all

theorem proposal_high (v : Int) (cs : CellState) (h : c_HVoltage_engage ≤ v) :
    cellstate_proposal v cs = e_CellHVC := by
  cases cs <;> simp only [cellstate_proposal, c_LVoltage_engage, c_LVoltage_disengage,
    c_HVoltage_engage, c_HVoltage_disengage] at * <;>
    split_ifs <;> first | rfl | omega | (simp_all; omega) | simp_all

theorem proposal_low (v : Int) (cs : CellState) (h : v ≤ c_LVoltage_engage) :
    cellstate_proposal v cs = e_CellLVC := by
  cases cs <;> simp only [cellstate_proposal, c_LVoltage_engage, c_LVoltage_disengage,
    c_HVoltage_engage, c_HVoltage_disengage] at * <;>
    split_ifs <;> first | rfl | omega | (simp_all; omega) | simp_all

theorem proposal_ne_invalid (v : Int) (cs : CellState) :
    cellstate_proposal v cs ≠ e_CellInvalid := by
  cases cs <;> simp only [cellstate_proposal, c_LVoltage_engage, c_LVoltage_disengage,
    c_HVoltage_engage, c_HVoltage_disengage] <;>
    split_ifs <;> first | omega | simp_all | (intro hc; simp_all; omega)

/-- A committed state equal to the constant proposal of the fed voltages
is preserved by a run. -/
theorem run_keep (P : CellState) (vs : List Int) (s : BMSState)
    (hs : s.cellstate = P) (hp : ∀ v ∈ vs, cellstate_proposal v P = P) :
    (run_ticks vs s).cellstate = P := by
  induction vs generalizing s with
  | nil => exact hs
  | cons v rest ih =>
    rw [run_ticks_cons]
    apply ih
    · rcases det_cellstate_cases v s with h | h
      · rw [h, hs]
      · rw [hs] at h
        rw [h, hp v (List.mem_cons_self v rest)]
    · exact fun w hw => hp w (List.mem_cons_of_mem v hw)

/-- If the pending state already equals the constant proposal of the
fed voltages and enough cycles remain for its age to exceed the settle
time, the run commits that state. -/
theorem run_commit (P : CellState) (hPI : P ≠ e_CellInvalid) (vs : List Int) (s : BMSState)
    (hne : vs ≠ [])
    (hv : ∀ v ∈ vs, ∀ cs, cellstate_proposal v cs = P)
    (hpend : s.cellstate_pending = P)
    (hlen : c_StateSettleTime + 2 ≤ s.cellstate_pending_age + vs.length) :
    (run_ticks vs s).cellstate = P := by
  induction vs generalizing s with
  | nil => exact absurd rfl hne
  | cons v rest ih =>
    have hprop : cellstate_proposal v s.cellstate = P :=
      hv v (List.mem_cons_self v rest) s.cellstate
    rw [run_ticks_cons]
    by_cases hage : s.cellstate_pending_age > c_StateSettleTime
    · apply run_keep
      · exact det_commit v s P hprop hPI hpend hage
      · exact fun w hw => hv w (List.mem_cons_of_mem v hw) P
    · obtain ⟨_, hpend2, hage2⟩ := det_age v s P hprop hPI hpend hage
      have hrest : rest ≠ [] := by
        intro hnil
        rw [hnil] at hlen
        simp only [List.length_cons, List.length_nil, c_StateSettleTime] at hlen
        simp only [c_StateSettleTime] at hage
        omega
      apply ih (determine_cellstate v s) hrest _ hpend2
      · rw [hage2]
        simp only [List.length_cons] at hlen
        omega
      · exact fun w hw => hv w (List.mem_cons_of_mem v hw)

/-- Convergence of the debounced cell state machine: if every fed
voltage forces the same proposal P from every current state, then
after at least settle-time + 3 cycles the committed state is P,
regardless of the start state. -/
theorem run_converges (P : CellState) (hPI : P ≠ e_CellInvalid)
    (vs : List Int) (s : BMSState)
    (hv : ∀ v ∈ vs, ∀ cs, cellstate_proposal v cs = P)
    (hlen : c_StateSettleTime + 3 ≤ vs.length) :
    (run_ticks vs s).cellstate = P := by
  cases vs with
  | nil => simp [c_StateSettleTime] at hlen
  | cons v rest =>
    have hprop : cellstate_proposal v s.cellstate = P :=
      hv v (List.mem_cons_self v rest) s.cellstate
    rw [run_ticks_cons]
    apply run_commit P hPI rest (determine_cellstate v s)
    · intro hnil
      rw [hnil] at hlen
      simp [c_StateSettleTime] at hlen
    · exact fun w hw => hv w (List.mem_cons_of_mem v hw)
    · exact det_pending_const v s P hprop hPI
    · simp only [List.length_cons] at hlen
      omega

theorem det_shunting_eq (v : Int) (s : BMSState) :
    (determine_cellstate v s).shunting =
      (shunt_debounce (shunting_proposal v s.shunting) s).shunting := by
  rw [determine_cellstate_eq]; split_ifs <;> simp

theorem det_shunting_pending_eq (v : Int) (s : BMSState) :
    (determine_cellstate v s).shunting_pending =
      (shunt_debounce (shunting_proposal v s.shunting) s).shunting_pending := by
  rw [determine_cellstate_eq]; split_ifs <;> simp

theorem det_shunting_pending_age_eq (v : Int) (s : BMSState) :
    (determine_cellstate v s).shunting_pending_age =
      (shunt_debounce (shunting_proposal v s.shunting) s).shunting_pending_age := by
  rw [determine_cellstate_eq]; split_ifs <;> simp

theorem sd_pending (b : Bool) (s : BMSState) :
    (shunt_debounce b s).shunting_pending = b := by
  unfold shunt_debounce; split_ifs <;> simp_all

theorem sd_cases (b : Bool) (s : BMSState) :
    (shunt_debounce b s).shunting = s.shunting ∨ (shunt_debounce b s).shunting = b := by
  unfold shunt_debounce; split_ifs <;> simp

theorem sd_commit (b : Bool) (s : BMSState)
    (hpend : s.shunting_pending = b)
    (hage : s.shunting_pending_age > c_StateSettleTime) :
    (shunt_debounce b s).shunting = b := by
  unfold shunt_debounce; split_ifs <;> simp_all

theorem sd_age (b : Bool) (s : BMSState)
    (hpend : s.shunting_pending = b)
    (hage : ¬ s.shunting_pending_age > c_StateSettleTime) :
    (shunt_debounce b s).shunting = s.shunting ∧
    (shunt_debounce b s).shunting_pending_age = s.shunting_pending_age + 1 := by
  unfold shunt_debounce; split_ifs <;> simp_all

theorem sh_run_keep (b : Bool) (vs : List Int) (s : BMSState)
    (hs : s.shunting = b) (hp : ∀ v ∈ vs, shunting_proposal v b = b) :
    (run_ticks vs s).shunting = b := by
  induction vs generalizing s with
  | nil => exact hs
  | cons v rest ih =>
    rw [run_ticks_cons]
    apply ih
    · rw [det_shunting_eq, hs, hp v (List.mem_cons_self v rest)]
      rcases sd_cases b s with h | h <;> rw [h]
      exact hs
    · exact fun w hw => hp w (List.mem_cons_of_mem v hw)

theorem sh_run_commit (b : Bool) (vs : List Int) (s : BMSState)
    (hne : vs ≠ [])
    (hv : ∀ v ∈ vs, ∀ sh, shunting_proposal v sh = b)
    (hpend : s.shunting_pending = b)
    (hlen : c_StateSettleTime + 2 ≤ s.shunting_pending_age + vs.length) :
    (run_ticks vs s).shunting = b := by
  induction vs generalizing s with
  | nil => exact absurd rfl hne
  | cons v rest ih =>
    have hprop : shunting_proposal v s.shunting = b := hv v (List.mem_cons_self v rest) s.shunting
    rw [run_ticks_cons]
    by_cases hage : s.shunting_pending_age > c_StateSettleTime
    · apply sh_run_keep
      · rw [det_shunting_eq, hprop]
        exact sd_commit b s hpend hage
      · exact fun w hw => hv w (List.mem_cons_of_mem v hw) b
    · have hpend2 : (determine_cellstate v s).shunting_pending = b := by
        rw [det_shunting_pending_eq, hprop, sd_pending]
      have hage2 : (determine_cellstate v s).shunting_pending_age =
          s.shunting_pending_age + 1 := by
        rw [det_shunting_pending_age_eq, hprop, (sd_age b s hpend hage).2]
      have hrest : rest ≠ [] := by
        intro hnil
        rw [hnil] at hlen
        simp only [List.length_cons, List.length_nil, c_StateSettleTime] at hlen
        simp only [c_StateSettleTime] at hage
        omega
      apply ih (determine_cellstate v s) hrest _ hpend2
      · rw [hage2]
        simp only [List.length_cons] at hlen
        omega
      · exact fun w hw => hv w (List.mem_cons_of_mem v hw)

/-- Convergence of the debounced shunting flag: if every fed voltage
forces the same shunting proposal b from either current value, then
after at least settle-time + 3 cycles the committed flag is b. -/
theorem sh_run_converges (b : Bool) (vs : List Int) (s : BMSState)
    (hv : ∀ v ∈ vs, ∀ sh, shunting_proposal v sh = b)
    (hlen : c_StateSettleTime + 3 ≤ vs.length) :
    (run_ticks vs s).shunting = b := by
  cases vs with
  | nil => simp [c_StateSettleTime] at hlen
  | cons v rest =>
    have hprop : shunting_proposal v s.shunting = b := hv v (List.mem_cons_self v rest) s.shunting
    rw [run_ticks_cons]
    apply sh_run_commit b rest (determine_cellstate v s)
    · intro hnil
      rw [hnil] at hlen
      simp [c_StateSettleTime] at hlen
    · exact fun w hw => hv w (List.mem_cons_of_mem v hw)
    · rw [det_shunting_pending_eq, hprop, sd_pending]
    · simp only [List.length_cons] at hlen
      omega

theorem recency_duration_eq : c_RecentCutOffDuration = 1800 := rfl

theorem recency_sentinel_eq : c_NoCutoffEvent = 65535 := rfl

/-- While still inside the recent-cutoff window, the counter simply
counts the cycles since the cutoff. -/
theorem normal_run_counts (k : Nat) (h : k < c_RecentCutOffDuration) :
    normal_run 0 k = k := by
  induction k with
  | zero => rfl
  | succ k ih =>
    have hk : k < c_RecentCutOffDuration := Nat.lt_of_succ_lt h
    show (loop_recency_update (normal_run 0 k) e_CellNorm).1 = k + 1
    rw [ih hk]
    unfold loop_recency_update
    rw [if_pos (by simp only [c_NoCutoffEvent]; simp only [c_RecentCutOffDuration] at h; omega)]
    simp only []
    rw [if_pos (by simp only [c_RecentCutOffDuration] at h ⊢; omega)]

/-- Once the recent-cutoff window has elapsed, the counter is pinned to
the sentinel. -/
theorem normal_run_pinned (k : Nat) (h : c_RecentCutOffDuration ≤ k) :
    normal_run 0 k = c_NoCutoffEvent := by
  induction k with
  | zero => simp [c_RecentCutOffDuration] at h
  | succ k ih =>
    show (loop_recency_update (normal_run 0 k) e_CellNorm).1 = c_NoCutoffEvent
    by_cases hk : c_RecentCutOffDuration ≤ k
    · rw [ih hk]
      rfl
    · have hk2 : k = c_RecentCutOffDuration - 1 := by
        simp only [c_RecentCutOffDuration] at *; omega
      rw [hk2, normal_run_counts _ (by simp [c_RecentCutOffDuration])]
      unfold loop_recency_update
      rw [if_pos (by simp [c_RecentCutOffDuration, c_NoCutoffEvent])]
      simp only []
      rw [if_neg (by simp [c_RecentCutOffDuration])]

/-- The LED pulse is inverted on cycle k+1 of a committed-Normal run
exactly while the incremented counter is still below the duration. -/
theorem normal_invert_true (k : Nat) (h : k + 1 < c_RecentCutOffDuration) :
    (loop_recency_update (normal_run 0 k) e_CellNorm).2 = true := by
  rw [normal_run_counts k (Nat.lt_of_succ_lt h)]
  unfold loop_recency_update
  rw [if_pos (by simp only [c_NoCutoffEvent]; simp only [c_RecentCutOffDuration] at h; omega)]
  simp only []
  rw [if_pos (by simp only [c_RecentCutOffDuration] at h ⊢; omega)]

theorem normal_invert_false (k : Nat) (h : c_RecentCutOffDuration ≤ k + 1) :
    (loop_recency_update (normal_run 0 k) e_CellNorm).2 = false := by
  by_cases hk : c_RecentCutOffDuration ≤ k
  · rw [normal_run_pinned k hk]
    rfl
  · have hk2 : k + 1 = c_RecentCutOffDuration := by omega
    rw [normal_run_counts k (by omega)]
    unfold loop_recency_update
    rw [if_pos (by simp only [c_NoCutoffEvent, c_RecentCutOffDuration] at *; omega)]
    simp only []
    rw [if_neg (by omega)]

theorem push_run_succ (val : Int) (k : Nat) (s : AvgState) :
    push_run val (k + 1) s = push_run val k (moving_average val s).1 := rfl

theorem moving_average_fst_buffer (val : Int) (s : AvgState) :
    ((moving_average val s).1).avg_buffer =
      Function.update s.avg_buffer s.avg_index val := rfl

theorem moving_average_fst_index (val : Int) (s : AvgState) :
    ((moving_average val s).1).avg_index = s.avg_index + 1 := rfl

theorem fin5_sub_self (a : Fin c_MovingAverageWindow) : ((a - a : Fin c_MovingAverageWindow) : Nat) = 0 := by
  revert a; decide

theorem fin5_sub_succ (j i : Fin c_MovingAverageWindow) (h : j ≠ i) :
    ((j - (i + 1) : Fin c_MovingAverageWindow) : Nat) + 1 = ((j - i : Fin c_MovingAverageWindow) : Nat) ∧
    1 ≤ ((j - i : Fin c_MovingAverageWindow) : Nat) := by
  revert j i; decide

theorem fin5_sub_self_succ (i : Fin c_MovingAverageWindow) :
    ((i - (i + 1) : Fin c_MovingAverageWindow) : Nat) = 4 := by
  revert i; decide

/-- Slots at cyclic distance at least k from the cursor are untouched
by k pushes. -/
theorem push_run_preserve (val : Int) (k : Nat) (s : AvgState) (j : Fin c_MovingAverageWindow)
    (hk : k ≤ ((j - s.avg_index : Fin c_MovingAverageWindow) : Nat)) :
    (push_run val k s).avg_buffer j = s.avg_buffer j := by
  induction k generalizing s with
  | zero => rfl
  | succ k ih =>
    have hne : j ≠ s.avg_index := by
      intro he
      rw [he, fin5_sub_self] at hk
      omega
    rw [push_run_succ, ih]
    · rw [moving_average_fst_buffer, Function.update_noteq hne]
    · rw [moving_average_fst_index]
      have hfs := fin5_sub_succ j s.avg_index hne
      omega

/-- Slots at cyclic distance below k from the cursor hold the pushed
value after k ≤ window-size identical pushes. -/
theorem push_run_covers (val : Int) (k : Nat) (hk5 : k ≤ c_MovingAverageWindow)
    (s : AvgState) (j : Fin c_MovingAverageWindow)
    (hj : ((j - s.avg_index : Fin c_MovingAverageWindow) : Nat) < k) :
    (push_run val k s).avg_buffer j = val := by
  induction k generalizing s with
  | zero => omega
  | succ k ih =>
    rw [push_run_succ]
    by_cases he : j = s.avg_index
    · rw [push_run_preserve val k _ j]
      · rw [moving_average_fst_buffer, he, Function.update_same]
      · rw [moving_average_fst_index, he, fin5_sub_self_succ]
        simp only [c_MovingAverageWindow] at hk5
        omega
    · apply ih (by omega)
      rw [moving_average_fst_index]
      have hfs := fin5_sub_succ j s.avg_index he
      omega

/-- After window-size identical pushes every slot holds the pushed
value. -/
theorem push_run_const (val : Int) (s : AvgState) (j : Fin c_MovingAverageWindow) :
    (push_run val c_MovingAverageWindow s).avg_buffer j = val :=
  push_run_covers val c_MovingAverageWindow (le_refl _) s j (j - s.avg_index).isLt

theorem push_run_succ_right (val : Int) (k : Nat) (s : AvgState) :
    push_run val (k + 1) s = (moving_average val (push_run val k s)).1 := by
  induction k generalizing s with
  | zero => rfl
  | succ k ih =>
    rw [push_run_succ val (k + 1) s, ih, push_run_succ]

theorem proposal_hvc_stays (v : Int) (h : c_HVoltage_disengage ≤ v) :
    cellstate_proposal v e_CellHVC = e_CellHVC := by
  simp only [cellstate_proposal, c_LVoltage_engage, c_LVoltage_disengage,
    c_HVoltage_engage, c_HVoltage_disengage] at * <;>
    split_ifs <;> first | rfl | omega | (simp_all; omega) | simp_all

/-! ### Claims -/

/-- Claim C1: for every filtered voltage and every current cell state,
the proposal computed by determine_cellstate equals the seven rules of
spec section 4.2 evaluated in that exact order with later rules
overriding earlier ones, and whenever the voltage is at or below
low-voltage-engage the proposal is UnderVoltageCutoff, overriding
every other rule including the over-voltage rule. -/
theorem C1_classifier_seven_rule_order (v : Int) (cs : CellState) :
    cellstate_proposal v cs = classify_spec_rules v cs ∧
    (v ≤ c_LVoltage_engage → cellstate_proposal v cs = e_CellLVC) :=
  ⟨rfl, fun h => proposal_low v cs h⟩

/-- Witness for C1 at voltage 2800 (both cutoff conditions interplay:
2800 is at or below low-voltage-engage) from state OverVoltageCutoff. -/
theorem C1_classifier_seven_rule_order_witness :
    cellstate_proposal 2800 e_CellHVC = e_CellLVC :=
  (C1_classifier_seven_rule_order 2800 e_CellHVC).2 (by decide)

/-- Claim C9: the classifier never proposes e_CellInvalid (for an
Invalid current state the bootstrap, safe-band and cutoff rules cover
every voltage, and for a non-Invalid current state the default
proposal is that state), so the guard at src/main.cpp line 263 is
unreachable and determine_cellstate never sets the committed state
back to e_CellInvalid. -/
theorem C9_invalid_never_proposed :
    (∀ (v : Int) (cs : CellState), cellstate_proposal v cs ≠ e_CellInvalid) ∧
    (∀ (v : Int) (s : BMSState),
      (determine_cellstate v s).cellstate = e_CellInvalid →
      s.cellstate = e_CellInvalid) := by
  refine ⟨proposal_ne_invalid, fun v s h => ?_⟩
  rcases det_cellstate_cases v s with hc | hc
  · rw [← hc]
    exact h
  · rw [hc] at h
    exact absurd h (proposal_ne_invalid v s.cellstate)

/-- Witness for C9: at power-on state and nominal voltage the
committed state stays e_CellInvalid only because it started there. -/
theorem C9_invalid_never_proposed_witness :
    init_bms.cellstate = e_CellInvalid :=
  C9_invalid_never_proposed.2 3200 init_bms (by decide)

/-- Claim C4: with committed OverVoltageCutoff and the filtered
voltage held exactly at high-voltage-disengage, the proposal is
OverVoltageCutoff (never Normal) on every cycle, the committed state
never leaves OverVoltageCutoff for any run length, and an
exit-to-Normal proposal requires a voltage strictly below
high-voltage-disengage. -/
theorem C4_hvc_holds_at_disengage :
    cellstate_proposal c_HVoltage_disengage e_CellHVC = e_CellHVC ∧
    (∀ (n : Nat) (s : BMSState), s.cellstate = e_CellHVC →
      (run_ticks (List.replicate n c_HVoltage_disengage) s).cellstate = e_CellHVC) ∧
    (∀ v : Int, cellstate_proposal v e_CellHVC = e_CellNorm →
      v < c_HVoltage_disengage) := by
  refine ⟨by decide, fun n s hs => ?_, fun v h => ?_⟩
  · apply run_keep e_CellHVC _ s hs
    intro w hw
    rw [List.eq_of_mem_replicate hw]
    decide
  · by_contra hlt
    push_neg at hlt
    rw [proposal_hvc_stays v hlt] at h
    exact absurd h (by decide)

/-- Witness for C4: a four-cycle hold at the disengage threshold from
a committed OverVoltageCutoff state, and the exit bound at 3549 mV. -/
theorem C4_hvc_holds_at_disengage_witness :
    (run_ticks (List.replicate 4 c_HVoltage_disengage)
      ⟨e_CellHVC, e_CellNorm, 2, false, false, 0⟩).cellstate = e_CellHVC ∧
    (3549 : Int) < c_HVoltage_disengage :=
  ⟨C4_hvc_holds_at_disengage.2.1 4 ⟨e_CellHVC, e_CellNorm, 2, false, false, 0⟩ rfl,
   C4_hvc_holds_at_disengage.2.2 3549 (by decide)⟩

/-- Counterexample to claim C2 as stated: a run of settle-tick + 1 = 4
cycles at 3000 mV (strictly inside the safe band) from committed and
pending OverVoltageCutoff with pending age 0 leaves the committed
state at OverVoltageCutoff, not Normal. -/
theorem C2_counterexample_settle_plus_one :
    c_LVoltage_disengage < (3000 : Int) ∧ (3000 : Int) < c_HVoltage_disengage ∧
    (run_ticks (List.replicate (c_StateSettleTime + 1) 3000)
      ⟨e_CellHVC, e_CellHVC, 0, false, false, 0⟩).cellstate = e_CellHVC := by
  decide

/-- Claim C2 (amended): the age check of the debounce runs before the
increment, so from an arbitrary start state a run needs at least
settle-tick + 3 cycles, not settle-tick + 1: one cycle to load the
pending state, settle-tick + 1 cycles for its age to exceed
settle-tick, and one cycle to commit. With that bound both
convergence properties hold for every start state and every voltage
sequence in the respective band. -/
theorem C2_convergence_settle_plus_three :
    (∀ (vs : List Int) (s : BMSState),
      (∀ v ∈ vs, c_LVoltage_disengage < v ∧ v < c_HVoltage_disengage) →
      c_StateSettleTime + 3 ≤ vs.length →
      (run_ticks vs s).cellstate = e_CellNorm) ∧
    (∀ (vs : List Int) (s : BMSState),
      (∀ v ∈ vs, c_HVoltage_engage ≤ v) →
      c_StateSettleTime + 3 ≤ vs.length →
      (run_ticks vs s).cellstate = e_CellHVC) := by
  constructor
  · intro vs s hv hlen
    apply run_converges e_CellNorm (by decide) vs s _ hlen
    intro v hvv cs
    exact proposal_safe_band v cs (hv v hvv).1 (hv v hvv).2
  · intro vs s hv hlen
    apply run_converges e_CellHVC (by decide) vs s _ hlen
    intro v hvv cs
    exact proposal_high v cs (hv v hvv)

/-- Witness for the amended C2: six cycles at 3000 mV reach Normal
from committed OverVoltageCutoff, and six cycles at 3700 mV reach
OverVoltageCutoff from committed Normal. -/
theorem C2_convergence_settle_plus_three_witness :
    (run_ticks (List.replicate 6 3000)
      ⟨e_CellHVC, e_CellHVC, 0, false, false, 0⟩).cellstate = e_CellNorm ∧
    (run_ticks (List.replicate 6 3700)
      ⟨e_CellNorm, e_CellNorm, 0, false, false, 0⟩).cellstate = e_CellHVC :=
  ⟨C2_convergence_settle_plus_three.1 _ _ (by decide) (by decide),
   C2_convergence_settle_plus_three.2 _ _ (by decide) (by decide)⟩

/-- Claim C6: shunt engagement and cell classification are
independent. From committed Normal with shunting off, holding the
filtered voltage at shunt-engage + 1 mV (below
high-voltage-disengage) keeps the committed cell state Normal on
every prefix of the run, and any run of at least settle-tick + 3
cycles commits shunting = true. -/
theorem C6_shunt_independent_of_cellstate :
    ∀ s : BMSState, s.cellstate = e_CellNorm → s.shunting = false →
      (∀ k : Nat,
        (run_ticks (List.replicate k (c_ShuntVoltage_engage + 1)) s).cellstate
          = e_CellNorm) ∧
      (∀ n : Nat, c_StateSettleTime + 3 ≤ n →
        (run_ticks (List.replicate n (c_ShuntVoltage_engage + 1)) s).shunting
          = true) := by
  intro s hcs _
  constructor
  · intro k
    apply run_keep e_CellNorm _ s hcs
    intro w hw
    rw [List.eq_of_mem_replicate hw]
    decide
  · intro n hn
    apply sh_run_converges true _ s
    · intro w hw sh
      rw [List.eq_of_mem_replicate hw]
      cases sh <;> decide
    · rw [List.length_replicate]
      exact hn

/-- Witness for C6: six cycles at 3501 mV from committed Normal with
all pending ages zero. -/
theorem C6_shunt_independent_of_cellstate_witness :
    (run_ticks (List.replicate 6 (c_ShuntVoltage_engage + 1))
      ⟨e_CellNorm, e_CellNorm, 0, false, false, 0⟩).cellstate = e_CellNorm ∧
    (run_ticks (List.replicate 6 (c_ShuntVoltage_engage + 1))
      ⟨e_CellNorm, e_CellNorm, 0, false, false, 0⟩).shunting = true :=
  ⟨(C6_shunt_independent_of_cellstate ⟨e_CellNorm, e_CellNorm, 0, false, false, 0⟩
      rfl rfl).1 6,
   (C6_shunt_independent_of_cellstate ⟨e_CellNorm, e_CellNorm, 0, false, false, 0⟩
      rfl rfl).2 6 (by decide)⟩

/-- Claim C7: from committed and pending state both Normal, a
single-cycle spike at or above high-voltage-engage followed by a
return strictly inside the safe band never commits OverVoltageCutoff:
the spike cycle only loads pending = OverVoltageCutoff with age 0,
the return cycle replaces pending with Normal and resets the age to 0
(discarding the partial progress), and any safe-band continuation
keeps the committed state Normal. -/
theorem C7_single_spike_not_committed :
    ∀ (s : BMSState) (v1 v2 : Int),
      s.cellstate = e_CellNorm → s.cellstate_pending = e_CellNorm →
      c_HVoltage_engage ≤ v1 →
      c_LVoltage_disengage < v2 → v2 < c_HVoltage_disengage →
      ((determine_cellstate v1 s).cellstate = e_CellNorm ∧
       (determine_cellstate v1 s).cellstate_pending = e_CellHVC ∧
       (determine_cellstate v1 s).cellstate_pending_age = 0) ∧
      ((determine_cellstate v2 (determine_cellstate v1 s)).cellstate = e_CellNorm ∧
       (determine_cellstate v2 (determine_cellstate v1 s)).cellstate_pending = e_CellNorm ∧
       (determine_cellstate v2 (determine_cellstate v1 s)).cellstate_pending_age = 0) ∧
      (∀ vs : List Int,
        (∀ v ∈ vs, c_LVoltage_disengage < v ∧ v < c_HVoltage_disengage) →
        (run_ticks vs (determine_cellstate v2 (determine_cellstate v1 s))).cellstate
          = e_CellNorm) := by
  intro s v1 v2 hcs hpend hv1 hv2a hv2b
  have hp1 : cellstate_proposal v1 s.cellstate = e_CellHVC := proposal_high v1 _ hv1
  obtain ⟨h1c, h1p, h1a⟩ :=
    det_fresh v1 s e_CellHVC hp1 (by decide) (by rw [hpend]; decide)
  rw [hcs] at h1c
  have hp2 : cellstate_proposal v2 (determine_cellstate v1 s).cellstate = e_CellNorm :=
    proposal_safe_band v2 _ hv2a hv2b
  obtain ⟨h2c, h2p, h2a⟩ :=
    det_fresh v2 _ e_CellNorm hp2 (by decide) (by rw [h1p]; decide)
  rw [h1c] at h2c
  refine ⟨⟨h1c, h1p, h1a⟩, ⟨h2c, h2p, h2a⟩, ?_⟩
  intro vs hvs
  apply run_keep e_CellNorm vs _ h2c
  intro w hw
  exact proposal_safe_band w _ (hvs w hw).1 (hvs w hw).2

/-- Witness for C7: a 3650 mV spike from pending age 7, return at
3200 mV, continuation at 3000 mV. -/
theorem C7_single_spike_not_committed_witness :
    (determine_cellstate 3200 (determine_cellstate 3650
      ⟨e_CellNorm, e_CellNorm, 7, false, false, 0⟩)).cellstate_pending = e_CellNorm ∧
    (run_ticks [3000] (determine_cellstate 3200 (determine_cellstate 3650
      ⟨e_CellNorm, e_CellNorm, 7, false, false, 0⟩))).cellstate = e_CellNorm := by
  have h := C7_single_spike_not_committed ⟨e_CellNorm, e_CellNorm, 7, false, false, 0⟩
    3650 3200 rfl rfl (by decide) (by decide) (by decide)
  exact ⟨h.2.1.2.1, h.2.2 [3000] (by decide)⟩

/-- Counterexample to claim C3 as stated: in the end-to-end scenario
the filtered voltage stays above 2900 mV on cycles 1-7 (3200, 3200,
3200, 3130, 3060, 2990, 2920) and first reaches 2850 ≤ 2900 at cycle
T = 8, yet 4 cycles after T (cycle 12) the committed state is still
Normal, not UnderVoltageCutoff. -/
theorem C3_counterexample_commit_after_four :
    (scenario_state 1).cellvoltage = 3200 ∧
    (scenario_state 2).cellvoltage = 3200 ∧
    (scenario_state 3).cellvoltage = 3200 ∧
    (scenario_state 4).cellvoltage = 3130 ∧
    (scenario_state 5).cellvoltage = 3060 ∧
    (scenario_state 6).cellvoltage = 2990 ∧
    (scenario_state 7).cellvoltage = 2920 ∧
    (scenario_state 8).cellvoltage = 2850 ∧
    (scenario_state 12).bms.cellstate = e_CellNorm := by
  decide

/-- Claim C3 (amended): in the end-to-end scenario the filtered value
first drops to at-or-below low-voltage-engage (2900) at cycle T = 8,
and the committed state becomes UnderVoltageCutoff exactly 5 cycles
after T and not sooner: 1 cycle to load the pending state plus 4
further cycles until the pending age exceeds the settle-tick count,
since the debounce checks the age before incrementing it. -/
theorem C3_commit_five_ticks_after :
    (scenario_state 1).cellvoltage = 3200 ∧
    (scenario_state 2).cellvoltage = 3200 ∧
    (scenario_state 3).cellvoltage = 3200 ∧
    (scenario_state 4).cellvoltage = 3130 ∧
    (scenario_state 5).cellvoltage = 3060 ∧
    (scenario_state 6).cellvoltage = 2990 ∧
    (scenario_state 7).cellvoltage = 2920 ∧
    (scenario_state 8).cellvoltage = 2850 ∧
    (scenario_state 8).bms.cellstate_pending = e_CellLVC ∧
    (scenario_state 8).bms.cellstate_pending_age = 0 ∧
    (scenario_state 1).bms.cellstate = e_CellInvalid ∧
    (scenario_state 2).bms.cellstate = e_CellInvalid ∧
    (scenario_state 3).bms.cellstate = e_CellInvalid ∧
    (scenario_state 4).bms.cellstate = e_CellInvalid ∧
    (scenario_state 5).bms.cellstate = e_CellInvalid ∧
    (scenario_state 6).bms.cellstate = e_CellNorm ∧
    (scenario_state 7).bms.cellstate = e_CellNorm ∧
    (scenario_state 8).bms.cellstate = e_CellNorm ∧
    (scenario_state 9).bms.cellstate = e_CellNorm ∧
    (scenario_state 10).bms.cellstate = e_CellNorm ∧
    (scenario_state 11).bms.cellstate = e_CellNorm ∧
    (scenario_state 12).bms.cellstate = e_CellNorm ∧
    (scenario_state 13).bms.cellstate = e_CellLVC := by
  decide

theorem moving_average_snd_eq (val : Int) (s : AvgState) :
    (moving_average val s).2 = Int.tdiv
      (((moving_average val s).1).avg_buffer 0 + ((moving_average val s).1).avg_buffer 1 +
       ((moving_average val s).1).avg_buffer 2 + ((moving_average val s).1).avg_buffer 3 +
       ((moving_average val s).1).avg_buffer 4) (c_MovingAverageWindow : Int) := rfl

/-- Claim C5: each cycle with a committed cutoff state resets the
recency counter to 0; on other cycles the counter is incremented
unless it already holds the sentinel (in the Normal branch the value
is pinned to the sentinel exactly when the incremented count reaches
the configured duration); and a committed-Normal run after a cutoff
reaches the sentinel exactly recent-cutoff-duration cycles later and
not before. -/
theorem C5_recency_counter :
    (∀ a : Nat, (loop_recency_update a e_CellLVC).1 = 0) ∧
    (∀ a : Nat, (loop_recency_update a e_CellHVC).1 = 0) ∧
    (∀ cs : CellState, cs ≠ e_CellLVC → cs ≠ e_CellHVC →
      (loop_recency_update c_NoCutoffEvent cs).1 = c_NoCutoffEvent) ∧
    (∀ a : Nat, a ≠ c_NoCutoffEvent →
      (loop_recency_update a e_CellInvalid).1 = a + 1) ∧
    (∀ a : Nat, a ≠ c_NoCutoffEvent → a + 1 < c_RecentCutOffDuration →
      (loop_recency_update a e_CellNorm).1 = a + 1) ∧
    (∀ a : Nat, a ≠ c_NoCutoffEvent → c_RecentCutOffDuration ≤ a + 1 →
      (loop_recency_update a e_CellNorm).1 = c_NoCutoffEvent) ∧
    (∀ k : Nat, 1 ≤ k → k < c_RecentCutOffDuration →
      normal_run 0 k = k ∧ normal_run 0 k ≠ c_NoCutoffEvent) ∧
    normal_run 0 c_RecentCutOffDuration = c_NoCutoffEvent := by
  refine ⟨fun a => rfl, fun a => rfl, ?_, ?_, ?_, ?_, ?_, ?_⟩
  · intro cs h1 h2
    cases cs
    · rfl
    · rfl
    · exact absurd rfl h1
    · exact absurd rfl h2
  · intro a ha
    simp [loop_recency_update, ha]
  · intro a h1 h2
    simp [loop_recency_update, h1, h2]
  · intro a h1 h2
    have h3 : ¬ (a + 1 < c_RecentCutOffDuration) := by omega
    simp [loop_recency_update, h1, h3]
  · intro k h1 h2
    refine ⟨normal_run_counts k h2, ?_⟩
    rw [normal_run_counts k h2]
    simp only [c_RecentCutOffDuration] at h2
    simp only [c_NoCutoffEvent]
    omega
  · exact normal_run_pinned c_RecentCutOffDuration (le_refl _)

/-- Witness for C5: a cutoff cycle at counter 7 resets to 0, a
non-cutoff cycle at 7 increments to 8 (Invalid and Normal branches). -/
theorem C5_recency_counter_witness :
    (loop_recency_update 7 e_CellLVC).1 = 0 ∧
    (loop_recency_update 7 e_CellInvalid).1 = 8 ∧
    (loop_recency_update 7 e_CellNorm).1 = 8 :=
  ⟨C5_recency_counter.1 7,
   C5_recency_counter.2.2.2.1 7 (by decide),
   C5_recency_counter.2.2.2.2.1 7 (by decide) (by decide)⟩

/-- Claim C10: setup initializes the recency counter to 0 rather than
to the sentinel, so a committed-Normal run from power-on behaves
exactly like a run that starts just after a cutoff: the LED pulse is
inverted while the counter is still inside the recent-cutoff window,
the counter is not pinned before the duration elapses, and once the
duration elapses the counter is pinned to the sentinel and the normal
(non-inverted) pulse is used from then on. -/
theorem C10_poweron_recency :
    setup_last_cutoff_age = 0 ∧
    setup_last_cutoff_age ≠ c_NoCutoffEvent ∧
    (∀ k : Nat, normal_run setup_last_cutoff_age k = normal_run 0 k) ∧
    (∀ k : Nat, k + 1 < c_RecentCutOffDuration →
      (loop_recency_update (normal_run setup_last_cutoff_age k) e_CellNorm).2 = true) ∧
    (∀ k : Nat, c_RecentCutOffDuration ≤ k + 1 →
      (loop_recency_update (normal_run setup_last_cutoff_age k) e_CellNorm).2 = false) ∧
    (∀ k : Nat, k < c_RecentCutOffDuration →
      normal_run setup_last_cutoff_age k ≠ c_NoCutoffEvent) ∧
    (∀ k : Nat, c_RecentCutOffDuration ≤ k →
      normal_run setup_last_cutoff_age k = c_NoCutoffEvent) := by
  refine ⟨rfl, by decide, fun k => rfl, ?_, ?_, ?_, ?_⟩
  · intro k h
    exact normal_invert_true k h
  · intro k h
    exact normal_invert_false k h
  · intro k h
    show normal_run 0 k ≠ c_NoCutoffEvent
    rw [normal_run_counts k h]
    simp only [c_RecentCutOffDuration] at h
    simp only [c_NoCutoffEvent]
    omega
  · intro k h
    exact normal_run_pinned k h

/-- Witness for C10: the pulse on cycle 6 after power-on is inverted,
and after the full duration the counter sits at the sentinel. -/
theorem C10_poweron_recency_witness :
    (loop_recency_update (normal_run setup_last_cutoff_age 5) e_CellNorm).2 = true ∧
    normal_run setup_last_cutoff_age c_RecentCutOffDuration = c_NoCutoffEvent :=
  ⟨C10_poweron_recency.2.2.2.1 5 (by decide),
   C10_poweron_recency.2.2.2.2.2.2 c_RecentCutOffDuration (le_refl _)⟩

/-- Claim C8: pushing the same reading window-size times yields a
filtered value exactly equal to that reading; each push overwrites
exactly the slot under the cursor (all other slots unchanged),
advances the cursor modulo the window size, and returns the
truncating integer mean of all slots. -/
theorem C8_filter_roundtrip :
    (∀ (val : Int) (s : AvgState),
      (moving_average val (push_run val (c_MovingAverageWindow - 1) s)).2 = val) ∧
    (∀ (val : Int) (s : AvgState),
      ((moving_average val s).1).avg_buffer s.avg_index = val) ∧
    (∀ (val : Int) (s : AvgState) (j : Fin c_MovingAverageWindow), j ≠ s.avg_index →
      ((moving_average val s).1).avg_buffer j = s.avg_buffer j) ∧
    (∀ (val : Int) (s : AvgState),
      (((moving_average val s).1).avg_index : Nat) =
        ((s.avg_index : Nat) + 1) % c_MovingAverageWindow) ∧
    (∀ (val : Int) (s : AvgState),
      (moving_average val s).2 = Int.tdiv
        (((moving_average val s).1).avg_buffer 0 + ((moving_average val s).1).avg_buffer 1 +
         ((moving_average val s).1).avg_buffer 2 + ((moving_average val s).1).avg_buffer 3 +
         ((moving_average val s).1).avg_buffer 4) (c_MovingAverageWindow : Int)) := by
  refine ⟨?_, ?_, ?_, ?_, fun val s => moving_average_snd_eq val s⟩
  · intro val s
    have h4 : c_MovingAverageWindow - 1 = 4 := rfl
    have hbuf : ∀ j : Fin c_MovingAverageWindow,
        ((moving_average val (push_run val 4 s)).1).avg_buffer j = val := by
      intro j
      have hc := push_run_const val s j
      have h5 : c_MovingAverageWindow = 4 + 1 := rfl
      rw [h5, push_run_succ_right] at hc
      exact hc
    rw [h4, moving_average_snd_eq, hbuf 0, hbuf 1, hbuf 2, hbuf 3, hbuf 4]
    have hsum : val + val + val + val + val = 5 * val := by ring
    rw [hsum]
    exact Int.mul_tdiv_cancel_left val (by decide)
  · intro val s
    rw [moving_average_fst_buffer, Function.update_same]
  · intro val s j hj
    rw [moving_average_fst_buffer, Function.update_noteq hj]
  · intro val s
    rw [moving_average_fst_index]
    have h : ∀ i : Fin c_MovingAverageWindow,
        ((i + 1 : Fin c_MovingAverageWindow) : Nat) = ((i : Nat) + 1) % c_MovingAverageWindow := by
      decide
    exact h s.avg_index

/-- Witness for C8: five pushes of 7 mV into the power-on window give
filtered value 7, and a single push leaves the slot after the cursor
untouched. -/
theorem C8_filter_roundtrip_witness :
    (moving_average 7 (push_run 7 (c_MovingAverageWindow - 1) init_avg)).2 = 7 ∧
    ((moving_average 7 init_avg).1).avg_buffer 1 = 3200 :=
  ⟨C8_filter_roundtrip.1 7 init_avg,
   C8_filter_roundtrip.2.2.1 7 init_avg 1 (by decide)⟩
